import Mathlib

/-!
Shallow embedding of the monitoring scraper (`src/scraper.py`) and of the
update trigger (`src/app.py`, function `chamar_atualiza_status`).

Modelling choices, stated once:

* An HTML document is abstracted by the two views the external libraries
  extract from it and that the repository code consumes: `PageHtml.texto` is
  the visible text produced by `BeautifulSoup(html).get_text(separator)` and
  `PageHtml.tabelas` is the result of `pandas.read_html(html)` (`none` models
  the `ValueError` raised when no table can be parsed, `some l` the list of
  parsed tables in document order).  The two library parsers themselves are
  not repository code.
* A parsed table (`DataFrame`) is its column names in order plus its rows of
  cell strings.
* The regular-expression searches in `parse_resumo` use patterns of the
  shape `label \s* (\d+)` (for the third one the label has the character
  class `[aã]`, modelled as two alternative labels tried in order).  They are
  embedded by `reSearch`, which scans positions left to right and at each
  position tries each alternative label, then greedy whitespace, then a
  maximal nonempty digit run — exactly the leftmost-match semantics of
  `re.search`.  Whitespace and digits are modelled at ASCII/Latin-1 level
  (`pySpace`, `pyDigit`), the ranges that occur on the monitoring page.
* Python `str.strip` / `str.lower` are embedded by `pyStrip` / `pyLower`,
  the latter covering ASCII and the Latin-1 letters (so `Ú ↦ ú`).
* HTTP traffic is abstracted by an outcome value: either `requests`
  raised (connection error, timeout, redirect failure) with an exception
  text, or a response arrived with a status code, reason and body; the body
  is given directly as its `PageHtml` views, re-decoded with the apparent
  encoding.  `response.raise_for_status()` raises exactly for status codes
  in `[400, 600)`; this library semantics is reproduced by `fetch_html`.
* Exceptions become `Except MonitoramentoError`; logging calls are pure
  side effects, and the warning conditions of `parse_resumo` /
  `parse_tabela` are exposed by the predicates `resumoWarns` /
  `tabelaWarns` computed from the very same conditions the code tests.
-/

/-- Python `\s` on the characters in scope: space, tab, newline, carriage
return, vertical tab, form feed (by code point). -/
def pySpace (c : Char) : Bool :=
  c.toNat = 32 || c.toNat = 9 || c.toNat = 10 || c.toNat = 13 ||
    c.toNat = 11 || c.toNat = 12

/-- Python `\d` on ASCII: the decimal digits `0`–`9` (by code point). -/
def pyDigit (c : Char) : Bool :=
  48 ≤ c.toNat && c.toNat ≤ 57

/-- The space character, used as a harmless default for `List.headD`. -/
def spaceChar : Char := Char.ofNat 32

/-- `int` applied to a nonempty string of ASCII digits. -/
def digitsToNat (ds : List Char) : Nat :=
  ds.foldl (fun n c => 10 * n + (c.toNat - 48)) 0

/-- Python `str.lower` restricted to ASCII and the Latin-1 letters:
`A`–`Z` and `À`–`Þ` (except `×`) are shifted by 32, everything else is
unchanged. -/
def pyLower (c : Char) : Char :=
  let n := c.toNat
  if 65 ≤ n ∧ n ≤ 90 then Char.ofNat (n + 32)
  else if 192 ≤ n ∧ n ≤ 222 ∧ n ≠ 215 then Char.ofNat (n + 32)
  else c

/-- Python `str.strip`: remove whitespace from both ends. -/
def pyStrip (l : List Char) : List Char :=
  ((l.dropWhile pySpace).reverse.dropWhile pySpace).reverse

/-- `str.strip` on `String`. -/
def pyStripStr (s : String) : String :=
  String.mk (pyStrip s.data)

/-- Python substring containment `sub in s`. -/
def containsSub (sub s : List Char) : Bool :=
  s.tails.any fun t => sub.isPrefixOf t

/-- The one domain error kind of the module (`MonitoramentoError` in
`scraper.py`), carrying its message. -/
structure MonitoramentoError where
  msg : String
deriving DecidableEq

/-- The dictionary returned by `parse_resumo`, with its three integer
fields (`total_carros`, `total_funcionando`, `total_nao_funcionando`). -/
structure Resumo where
  total_carros : Nat
  total_funcionando : Nat
  total_nao_funcionando : Nat
deriving DecidableEq

/-- A table as parsed by `pandas.read_html`: column names in order and rows
of cell strings. -/
structure DataFrame where
  columns : List String
  rows : List (List String)
deriving DecidableEq

/-- An HTML document, abstracted by the two views the repository code
consumes (see the module comment): its visible text and its list of parsed
tables (`none` when `pandas.read_html` raises `ValueError`). -/
structure PageHtml where
  texto : String
  tabelas : Option (List DataFrame)
deriving DecidableEq

/-- The literal label of the first pattern of `parse_resumo`. -/
def LabelTotal : List Char := "Total de Carros:".data

/-- The literal label of the second pattern of `parse_resumo`. -/
def LabelFunc : List Char := "Total de Carros Funcionando:".data

/-- The third pattern's label with the `[aã]` class resolved to `a`. -/
def LabelNaoA : List Char := "Total de Carros Nao Funcionando:".data

/-- The third pattern's label with the `[aã]` class resolved to `ã`. -/
def LabelNaoAcc : List Char := "Total de Carros Não Funcionando:".data

/-- One attempt of the pattern `label \s* (\d+)` at the current position:
the label must be a literal prefix, then greedy whitespace, then a maximal
nonempty digit run, whose value is returned. -/
def tryOne (lab s : List Char) : Option Nat :=
  if lab.isPrefixOf s then
    let rest := (s.drop lab.length).dropWhile pySpace
    let ds := rest.takeWhile pyDigit
    if ds = [] then none else some (digitsToNat ds)
  else none

/-- Attempt each alternative label at the current position, in order. -/
def tryLabels : List (List Char) → List Char → Option Nat
  | [], _ => none
  | lab :: labs, s =>
    match tryOne lab s with
    | some n => some n
    | none => tryLabels labs s

/-- `re.search` for `label \s* (\d+)`: scan positions left to right and
return the captured value of the leftmost full match. -/
def reSearch (labs : List (List Char)) : List Char → Option Nat
  | [] => none
  | c :: cs =>
    match tryLabels labs (c :: cs) with
    | some n => some n
    | none => reSearch labs cs

/-- `parse_resumo` (`scraper.py`): run the three independent searches on
the visible text and fill missing values with 0. -/
def parse_resumo (page : PageHtml) : Resumo :=
  { total_carros := (reSearch [LabelTotal] page.texto.data).getD 0
    total_funcionando := (reSearch [LabelFunc] page.texto.data).getD 0
    total_nao_funcionando :=
      (reSearch [LabelNaoA, LabelNaoAcc] page.texto.data).getD 0 }

/-- The warning condition of `parse_resumo`: not all three searches
matched. -/
def resumoWarns (page : PageHtml) : Bool :=
  !((reSearch [LabelTotal] page.texto.data).isSome &&
    (reSearch [LabelFunc] page.texto.data).isSome &&
    (reSearch [LabelNaoA, LabelNaoAcc] page.texto.data).isSome)

/-- The stripped-and-lowered form of a column name, as computed inside the
classification loop of `parse_tabela` (`str(col).strip().lower()`). -/
def lowname (col : String) : List Char :=
  (pyStrip col.data).map pyLower

/-- The header-classification loop of `parse_tabela` for one column name:
strip and lower it, then the ordered substring rules `carro` ↦ `Carro`,
`último`/`ultimo` ↦ `Último Acesso`, `status` ↦ `Status`; columns matching
no rule are left unchanged by the rename. -/
def normaliza (col : String) : String :=
  if containsSub "carro".data (lowname col) then "Carro"
  else if containsSub "último".data (lowname col) ||
      containsSub "ultimo".data (lowname col) then
    "Último Acesso"
  else if containsSub "status".data (lowname col) then "Status"
  else col

/-- `df.rename` with the dictionary built by the classification loop:
every column is renamed to its canonical name when a rule matched, and kept
verbatim otherwise. -/
def renameDf (df : DataFrame) : DataFrame :=
  { df with columns := df.columns.map normaliza }

/-- The warning condition of `parse_tabela`: after the rename, the three
expected canonical columns are not all present. -/
def tabelaWarns (df : DataFrame) : Bool :=
  !(df.columns.contains "Carro" && df.columns.contains "Último Acesso" &&
    df.columns.contains "Status")

/-- `parse_tabela` (`scraper.py`): fail with the domain error when
`read_html` raised or returned no table, otherwise take the first table and
normalize its column names. -/
def parse_tabela (page : PageHtml) : Except MonitoramentoError DataFrame :=
  match page.tabelas with
  | none => .error ⟨"Nenhuma tabela HTML encontrada na página."⟩
  | some [] => .error ⟨"Nenhuma tabela HTML encontrada na página."⟩
  | some (df :: _) => .ok (renameDf df)

/-- An HTTP response, with its body abstracted as the `PageHtml` views of
`response.text` after the apparent-encoding re-decode. -/
structure HttpResponse where
  status : Nat
  reason : String
  page : PageHtml
deriving DecidableEq

/-- What the network did for one `requests.get` call: either an exception
(connection error, timeout, redirect failure) with its text, or a
response. -/
inductive FetchOutcome where
  | exc (msg : String)
  | resp (r : HttpResponse)
deriving DecidableEq

/-- The message of the `HTTPError` raised by `raise_for_status` for a
status in `[400, 600)`. -/
def httpErrText (status : Nat) (reason url : String) : String :=
  if status < 500 then
    toString status ++ " Client Error: " ++ reason ++ " for url: " ++ url
  else
    toString status ++ " Server Error: " ++ reason ++ " for url: " ++ url

/-- The message `fetch_html` wraps around the underlying exception text. -/
def fetchErrMsg (url cause : String) : String :=
  "Erro ao acessar a URL " ++ url ++ ": " ++ cause

/-- `fetch_html` (`scraper.py`): any `requests` exception — including the
`HTTPError` that `raise_for_status` raises for a 4xx/5xx status — is caught
and re-raised as a `MonitoramentoError` wrapping the URL and the cause; on
a non-error status the body re-decoded with the apparent encoding is
returned. -/
def fetch_html (url : String) (outcome : FetchOutcome) :
    Except MonitoramentoError PageHtml :=
  match outcome with
  | .exc msg => .error ⟨fetchErrMsg url msg⟩
  | .resp r =>
    if 400 ≤ r.status ∧ r.status < 600 then
      .error ⟨fetchErrMsg url (httpErrText r.status r.reason url)⟩
    else
      .ok r.page

/-- `get_monitoramento` (`scraper.py`): fetch, extract the summary, extract
the table, return the pair; an exception raised by `fetch_html` or
`parse_tabela` propagates unchanged. -/
def get_monitoramento (url : String) (outcome : FetchOutcome) :
    Except MonitoramentoError (DataFrame × Resumo) :=
  match fetch_html url outcome with
  | .error e => .error e
  | .ok page =>
    match parse_tabela page with
    | .error e => .error e
    | .ok df => .ok (df, parse_resumo page)

/-- `Except` success test. -/
def exOk {ε α : Type} : Except ε α → Bool
  | .ok _ => true
  | .error _ => false

/-- What the network did for the `requests.get` call of
`chamar_atualiza_status`: exception text, or a response with status,
reason and body text. -/
inductive ReqOutcome where
  | exc (msg : String)
  | resp (status : Nat) (reason : String) (text : String)
deriving DecidableEq

/-- The canned message used when the update endpoint answers with an empty
body. -/
def cannedUpdateMsg : String :=
  "Atualização concluída (sem mensagem do servidor)."

/-- `chamar_atualiza_status` (`app.py`): strip the URL, GET it; any
`requests` exception (including the `HTTPError` of `raise_for_status` on a
4xx/5xx status) yields `(false, error text)`; otherwise the stripped body
is returned with `success = true`, an empty body replaced by the canned
message. -/
def chamar_atualiza_status (url : String) (outcome : ReqOutcome) :
    Bool × String :=
  match outcome with
  | .exc msg => (false, "Erro ao atualizar status no servidor: " ++ msg)
  | .resp status reason text =>
    if 400 ≤ status ∧ status < 600 then
      (false, "Erro ao atualizar status no servidor: " ++
        httpErrText status reason (pyStripStr url))
    else
      if pyStripStr text = "" then (true, cannedUpdateMsg)
      else (true, pyStripStr text)

/-- The end-to-end scenario page of the spec: visible text with the three
totals, and one parsed table with the canonical header row and one data
row. -/
def pageC1 : PageHtml :=
  { texto := "Total de Carros: 117\nTotal de Carros Funcionando: 34\nTotal de Carros Não Funcionando: 83"
    tabelas := some [⟨["Carro", "Último Acesso", "Status"],
      [["Car001", "01/01/2024 10:00", "Funcionando"]]⟩] }

/-- A page whose visible text carries the three totals in scrambled order
(used to exercise order-insensitivity of the summary extraction). -/
def pageScrambled : PageHtml :=
  { texto := "Total de Carros Não Funcionando: 83\nTotal de Carros: 117\nTotal de Carros Funcionando: 34"
    tabelas := none }

/-- A page whose visible text carries only the `Funcionando` total. -/
def pageOnlyFunc : PageHtml :=
  { texto := "Total de Carros Funcionando: 34"
    tabelas := none }

/-- A first table whose headers match none of the canonical rules. -/
def dfMissingCols : DataFrame :=
  ⟨["Veiculo", "Extra"], [["V1", "x"]]⟩

/-- A second table with canonical headers, appearing after
`dfMissingCols`. -/
def dfSecond : DataFrame :=
  ⟨["Carro", "Último Acesso", "Status"], [["Car002", "02/01/2024 11:00", "Funcionando"]]⟩

/-- A page with two parsed tables; the first lacks the canonical
columns. -/
def pageTwoTables : PageHtml :=
  ⟨"", some [dfMissingCols, dfSecond]⟩

/-- A stub body for responses whose content is irrelevant. -/
def pageStub : PageHtml := ⟨"", none⟩

/-- A page whose visible text carries the first and second totals but not
the `Não Funcionando` one. -/
def pageNoNao : PageHtml :=
  { texto := "Total de Carros: 117\nTotal de Carros Funcionando: 34"
    tabelas := none }

/-- The search for one pattern (label alternatives `L`) fails at every
position of the text: the label is missing. -/
abbrev LabelAbsent (L : List (List Char)) (texto : List Char) : Prop :=
  ∀ i, i < texto.length → tryLabels L (texto.drop i) = none

/-- The text decomposes around the leftmost full match of a pattern: a
prefix `a` with no earlier match, the matched label variant `lab`, a
whitespace run, a maximal nonempty digit run `ds`, and the rest. -/
abbrev LabelFound (L : List (List Char)) (lab : List Char)
    (texto a ws ds b : List Char) : Prop :=
  texto = a ++ (lab ++ (ws ++ (ds ++ b))) ∧
  ws.all pySpace = true ∧ ds.all pyDigit = true ∧ ds ≠ [] ∧
  pyDigit (b.headD spaceChar) = false ∧
  ∀ i, i < a.length → tryLabels L (texto.drop i) = none

/-- An ASCII digit is not whitespace. -/
theorem pyDigit_not_pySpace {c : Char} (h : pyDigit c = true) :
    pySpace c = false := by
  unfold pyDigit at h
  unfold pySpace
  simp only [Bool.and_eq_true, decide_eq_true_eq] at h
  simp only [Bool.or_eq_false_iff, decide_eq_false_iff_not]
  omega

/-- A list is a `isPrefixOf`-prefix of itself extended on the right. -/
theorem isPrefixOf_append_self (l r : List Char) :
    l.isPrefixOf (l ++ r) = true :=
  List.isPrefixOf_iff_prefix.mpr (List.prefix_append l r)

/-- Dropping whitespace skips over a fully-whitespace block. -/
theorem dropWhile_space_all {ws : List Char} (t : List Char)
    (h : ws.all pySpace = true) :
    List.dropWhile pySpace (ws ++ t) = List.dropWhile pySpace t := by
  induction ws with
  | nil => rfl
  | cons c cs ih =>
    simp only [List.all_cons, Bool.and_eq_true] at h
    simp only [List.cons_append, List.dropWhile_cons, h.1, if_true]
    exact ih h.2

/-- Taking digits from a digit block followed by a non-digit boundary
returns exactly the block. -/
theorem takeWhile_digits_all {ds b : List Char}
    (hds : ds.all pyDigit = true) (hb : pyDigit (b.headD spaceChar) = false) :
    List.takeWhile pyDigit (ds ++ b) = ds := by
  induction ds with
  | nil =>
    cases b with
    | nil => rfl
    | cons c cs =>
      simp only [List.headD_cons] at hb
      simp [List.takeWhile_cons, hb]
  | cons c cs ih =>
    simp only [List.all_cons, Bool.and_eq_true] at hds
    simp [List.takeWhile_cons, hds.1, ih hds.2]

/-- A single pattern attempt succeeds at a position where the label is
followed by whitespace and a maximal nonempty digit run, and captures that
run's value. -/
theorem tryOne_found {lab ws ds b : List Char} (hne : ds ≠ [])
    (hds : ds.all pyDigit = true) (hws : ws.all pySpace = true)
    (hb : pyDigit (b.headD spaceChar) = false) :
    tryOne lab (lab ++ (ws ++ (ds ++ b))) = some (digitsToNat ds) := by
  unfold tryOne
  simp only [isPrefixOf_append_self, if_true, List.drop_left]
  rw [dropWhile_space_all (ds ++ b) hws]
  obtain ⟨d, ds2, rfl⟩ : ∃ d ds2, ds = d :: ds2 := by
    cases ds with
    | nil => exact absurd rfl hne
    | cons d ds2 => exact ⟨d, ds2, rfl⟩
  have hd : pyDigit d = true := by
    simp only [List.all_cons, Bool.and_eq_true] at hds
    exact hds.1
  rw [List.cons_append, List.dropWhile_cons, pyDigit_not_pySpace hd]
  simp only [Bool.false_eq_true, if_false]
  rw [← List.cons_append, takeWhile_digits_all hds hb]
  simp

/-- No pattern attempt succeeds on the empty text. -/
theorem tryOne_empty (lab : List Char) : tryOne lab [] = none := by
  cases lab with
  | nil => rfl
  | cons c cs => rfl

/-- No alternative succeeds on the empty text. -/
theorem tryLabels_empty (L : List (List Char)) : tryLabels L [] = none := by
  induction L with
  | nil => rfl
  | cons lab labs ih =>
    unfold tryLabels
    rw [tryOne_empty]
    exact ih

/-- If the first alternative matches here, the attempt returns its
capture. -/
theorem tryLabels_cons_hit {lab : List Char} {L : List (List Char)}
    {s : List Char} {n : Nat} (h : tryOne lab s = some n) :
    tryLabels (lab :: L) s = some n := by
  unfold tryLabels
  rw [h]

/-- If the first alternative fails here, the later alternatives decide. -/
theorem tryLabels_cons_miss {lab : List Char} {L : List (List Char)}
    {s : List Char} (h : tryOne lab s = none) :
    tryLabels (lab :: L) s = tryLabels L s := by
  show (match tryOne lab s with
    | some n => some n
    | none => tryLabels L s) = tryLabels L s
  rw [h]

/-- A single-alternative attempt is exactly `tryOne`. -/
theorem tryLabels_single {lab s : List Char} :
    tryLabels [lab] s = tryOne lab s := by
  cases h : tryOne lab s with
  | some n => exact tryLabels_cons_hit h
  | none =>
    rw [tryLabels_cons_miss h]
    rfl

/-- A successful attempt at the current position makes the whole search
return that capture. -/
theorem reSearch_hit {L : List (List Char)} {s : List Char} {n : Nat}
    (h : tryLabels L s = some n) : reSearch L s = some n := by
  cases s with
  | nil =>
    rw [tryLabels_empty] at h
    exact absurd h (by simp)
  | cons c cs =>
    unfold reSearch
    rw [h]

/-- Scanning skips over a block of positions where every attempt fails. -/
theorem reSearch_skip {L : List (List Char)} (a rest : List Char)
    (ha : ∀ i, i < a.length → tryLabels L ((a ++ rest).drop i) = none) :
    reSearch L (a ++ rest) = reSearch L rest := by
  induction a with
  | nil => rfl
  | cons c cs ih =>
    have h0 : tryLabels L (c :: (cs ++ rest)) = none := by
      have h := ha 0 (by simp)
      simpa using h
    rw [List.cons_append]
    show (match tryLabels L (c :: (cs ++ rest)) with
      | some n => some n
      | none => reSearch L (cs ++ rest)) = reSearch L rest
    rw [h0]
    exact ih (fun i hi => by
      have h := ha (i + 1) (by simpa using Nat.succ_lt_succ hi)
      simpa using h)

/-- Leftmost-match characterization used positively: if every attempt
before a position fails and the attempt at that position captures `n`, the
search returns `n`. -/
theorem reSearch_found {L : List (List Char)} {n : Nat} (a rest : List Char)
    (ha : ∀ i, i < a.length → tryLabels L ((a ++ rest).drop i) = none)
    (hr : tryLabels L rest = some n) :
    reSearch L (a ++ rest) = some n := by
  rw [reSearch_skip a rest ha]
  exact reSearch_hit hr

/-- If every attempt at every position fails, the search fails. -/
theorem reSearch_none {L : List (List Char)} (s : List Char)
    (h : ∀ i, i < s.length → tryLabels L (s.drop i) = none) :
    reSearch L s = none := by
  induction s with
  | nil => rfl
  | cons c cs ih =>
    have h0 : tryLabels L (c :: cs) = none := by
      have hh := h 0 (by simp)
      simpa using hh
    unfold reSearch
    rw [h0]
    exact ih (fun i hi => by
      have hh := h (i + 1) (by simpa using Nat.succ_lt_succ hi)
      simpa using hh)

/-- The unaccented `Nao` alternative never matches at a position where the
accented label sits: the two differ at the `a`/`ã` character. -/
theorem naoA_not_prefixOf_acc (rest : List Char) :
    LabelNaoA.isPrefixOf (LabelNaoAcc ++ rest) = false := rfl

/-- Hence the first alternative of the third pattern fails on text starting
with the accented label. -/
theorem tryOne_naoA_on_acc (rest : List Char) :
    tryOne LabelNaoA (LabelNaoAcc ++ rest) = none := by
  unfold tryOne
  rw [naoA_not_prefixOf_acc]
  rfl

/-- Claim C2: for any visible text in which each of the three literal
labels (the third in either its `Não` or `Nao` variant) occurs — at its
leftmost pattern match — followed by optional whitespace and a maximal
nonempty run of decimal digits, `parse_resumo` returns exactly those three
integers, whatever the order of the labels and whatever surrounds them. -/
theorem parse_resumo_extracts_all_labels (page : PageHtml)
    (a1 ws1 ds1 b1 a2 ws2 ds2 b2 a3 lab3 ws3 ds3 b3 : List Char)
    (e1 : page.texto.data = a1 ++ (LabelTotal ++ (ws1 ++ (ds1 ++ b1))))
    (hws1 : ws1.all pySpace = true) (hds1 : ds1.all pyDigit = true)
    (hne1 : ds1 ≠ []) (hb1 : pyDigit (b1.headD spaceChar) = false)
    (hmin1 : ∀ i, i < a1.length →
      tryLabels [LabelTotal] (page.texto.data.drop i) = none)
    (e2 : page.texto.data = a2 ++ (LabelFunc ++ (ws2 ++ (ds2 ++ b2))))
    (hws2 : ws2.all pySpace = true) (hds2 : ds2.all pyDigit = true)
    (hne2 : ds2 ≠ []) (hb2 : pyDigit (b2.headD spaceChar) = false)
    (hmin2 : ∀ i, i < a2.length →
      tryLabels [LabelFunc] (page.texto.data.drop i) = none)
    (hlab3 : lab3 = LabelNaoA ∨ lab3 = LabelNaoAcc)
    (e3 : page.texto.data = a3 ++ (lab3 ++ (ws3 ++ (ds3 ++ b3))))
    (hws3 : ws3.all pySpace = true) (hds3 : ds3.all pyDigit = true)
    (hne3 : ds3 ≠ []) (hb3 : pyDigit (b3.headD spaceChar) = false)
    (hmin3 : ∀ i, i < a3.length →
      tryLabels [LabelNaoA, LabelNaoAcc] (page.texto.data.drop i) = none) :
    parse_resumo page =
      ⟨digitsToNat ds1, digitsToNat ds2, digitsToNat ds3⟩ := by
  have h1 : reSearch [LabelTotal] page.texto.data = some (digitsToNat ds1) := by
    rw [e1]
    exact reSearch_found a1 _ (fun i hi => by rw [← e1]; exact hmin1 i hi)
      (by rw [tryLabels_single]; exact tryOne_found hne1 hds1 hws1 hb1)
  have h2 : reSearch [LabelFunc] page.texto.data = some (digitsToNat ds2) := by
    rw [e2]
    exact reSearch_found a2 _ (fun i hi => by rw [← e2]; exact hmin2 i hi)
      (by rw [tryLabels_single]; exact tryOne_found hne2 hds2 hws2 hb2)
  have h3 : reSearch [LabelNaoA, LabelNaoAcc] page.texto.data =
      some (digitsToNat ds3) := by
    rw [e3]
    refine reSearch_found a3 _ (fun i hi => by rw [← e3]; exact hmin3 i hi) ?_
    rcases hlab3 with h | h
    · subst h
      exact tryLabels_cons_hit (tryOne_found hne3 hds3 hws3 hb3)
    · subst h
      rw [tryLabels_cons_miss (tryOne_naoA_on_acc _), tryLabels_single]
      exact tryOne_found hne3 hds3 hws3 hb3
  unfold parse_resumo
  rw [h1, h2, h3]
  rfl

/-- Concrete instance of `parse_resumo_extracts_all_labels`: the three
totals in scrambled order, with the accented label variant. -/
theorem parse_resumo_extracts_all_labels_witness :
    parse_resumo pageScrambled = ⟨117, 34, 83⟩ :=
  parse_resumo_extracts_all_labels pageScrambled
    "Total de Carros Não Funcionando: 83\n".data " ".data "117".data
    "\nTotal de Carros Funcionando: 34".data
    "Total de Carros Não Funcionando: 83\nTotal de Carros: 117\n".data
    " ".data "34".data "".data
    "".data LabelNaoAcc " ".data "83".data
    "\nTotal de Carros: 117\nTotal de Carros Funcionando: 34".data
    (by decide) (by decide) (by decide) (by decide) (by decide) (by decide)
    (by decide) (by decide) (by decide) (by decide) (by decide) (by decide)
    (Or.inr rfl)
    (by decide) (by decide) (by decide) (by decide) (by decide) (by decide)

/-- A leftmost-match decomposition for a single-alternative pattern makes
the search return the captured value. -/
theorem reSearch_eq_of_found_single {lab texto a ws ds b : List Char}
    (h : LabelFound [lab] lab texto a ws ds b) :
    reSearch [lab] texto = some (digitsToNat ds) := by
  obtain ⟨e, hws, hds, hne, hb, hmin⟩ := h
  rw [e]
  exact reSearch_found a _ (fun i hi => by rw [← e]; exact hmin i hi)
    (by rw [tryLabels_single]; exact tryOne_found hne hds hws hb)

/-- A leftmost-match decomposition for the two-alternative third pattern
(either `Nao` variant) makes the search return the captured value. -/
theorem reSearch_eq_of_found_nao {lab3 texto a ws ds b : List Char}
    (hlab : lab3 = LabelNaoA ∨ lab3 = LabelNaoAcc)
    (h : LabelFound [LabelNaoA, LabelNaoAcc] lab3 texto a ws ds b) :
    reSearch [LabelNaoA, LabelNaoAcc] texto = some (digitsToNat ds) := by
  obtain ⟨e, hws, hds, hne, hb, hmin⟩ := h
  rw [e]
  refine reSearch_found a _ (fun i hi => by rw [← e]; exact hmin i hi) ?_
  rcases hlab with h | h
  · subst h
    exact tryLabels_cons_hit (tryOne_found hne hds hws hb)
  · subst h
    rw [tryLabels_cons_miss (tryOne_naoA_on_acc _), tryLabels_single]
    exact tryOne_found hne hds hws hb

/-- Claim C5: the three labels are matched independently on every page —
each summary field is 0 when its label's search matches nowhere in the
visible text, and is the captured value when its label occurs (at its
leftmost pattern match, either `Nao` variant for the third); whenever at
least one label is missing the warning condition holds; and the function
is total, always returning a complete three-field summary.  Any
combination of one or two missing labels is an instance. -/
theorem parse_resumo_missing_labels_default (page : PageHtml) :
    (LabelAbsent [LabelTotal] page.texto.data →
      (parse_resumo page).total_carros = 0) ∧
    (∀ a ws ds b, LabelFound [LabelTotal] LabelTotal page.texto.data a ws ds b →
      (parse_resumo page).total_carros = digitsToNat ds) ∧
    (LabelAbsent [LabelFunc] page.texto.data →
      (parse_resumo page).total_funcionando = 0) ∧
    (∀ a ws ds b, LabelFound [LabelFunc] LabelFunc page.texto.data a ws ds b →
      (parse_resumo page).total_funcionando = digitsToNat ds) ∧
    (LabelAbsent [LabelNaoA, LabelNaoAcc] page.texto.data →
      (parse_resumo page).total_nao_funcionando = 0) ∧
    (∀ lab3 a ws ds b, (lab3 = LabelNaoA ∨ lab3 = LabelNaoAcc) →
      LabelFound [LabelNaoA, LabelNaoAcc] lab3 page.texto.data a ws ds b →
      (parse_resumo page).total_nao_funcionando = digitsToNat ds) ∧
    ((LabelAbsent [LabelTotal] page.texto.data ∨
      LabelAbsent [LabelFunc] page.texto.data ∨
      LabelAbsent [LabelNaoA, LabelNaoAcc] page.texto.data) →
      resumoWarns page = true) := by
  refine ⟨?_, ?_, ?_, ?_, ?_, ?_, ?_⟩
  · intro h
    show (reSearch [LabelTotal] page.texto.data).getD 0 = 0
    rw [reSearch_none _ h]
    rfl
  · intro a ws ds b h
    show (reSearch [LabelTotal] page.texto.data).getD 0 = digitsToNat ds
    rw [reSearch_eq_of_found_single h]
    rfl
  · intro h
    show (reSearch [LabelFunc] page.texto.data).getD 0 = 0
    rw [reSearch_none _ h]
    rfl
  · intro a ws ds b h
    show (reSearch [LabelFunc] page.texto.data).getD 0 = digitsToNat ds
    rw [reSearch_eq_of_found_single h]
    rfl
  · intro h
    show (reSearch [LabelNaoA, LabelNaoAcc] page.texto.data).getD 0 = 0
    rw [reSearch_none _ h]
    rfl
  · intro lab3 a ws ds b hlab h
    show (reSearch [LabelNaoA, LabelNaoAcc] page.texto.data).getD 0 =
      digitsToNat ds
    rw [reSearch_eq_of_found_nao hlab h]
    rfl
  · intro h
    rcases h with h | h | h <;> simp [resumoWarns, reSearch_none _ h]

/-- Concrete instances of `parse_resumo_missing_labels_default`: a page
missing only the third label (present fields 117 and 34 extracted, third
defaults to 0, warning set) and a page missing the first and third labels
(first defaults to 0, second extracted). -/
theorem parse_resumo_missing_labels_default_witness :
    (parse_resumo pageNoNao).total_carros = 117 ∧
    (parse_resumo pageNoNao).total_funcionando = 34 ∧
    (parse_resumo pageNoNao).total_nao_funcionando = 0 ∧
    resumoWarns pageNoNao = true ∧
    (parse_resumo pageOnlyFunc).total_carros = 0 ∧
    (parse_resumo pageOnlyFunc).total_funcionando = 34 :=
  ⟨(parse_resumo_missing_labels_default pageNoNao).2.1
      "".data " ".data "117".data
      "\nTotal de Carros Funcionando: 34".data (by decide),
   (parse_resumo_missing_labels_default pageNoNao).2.2.2.1
      "Total de Carros: 117\n".data " ".data "34".data "".data (by decide),
   (parse_resumo_missing_labels_default pageNoNao).2.2.2.2.1 (by decide),
   (parse_resumo_missing_labels_default pageNoNao).2.2.2.2.2.2
      (Or.inr (Or.inr (by decide))),
   (parse_resumo_missing_labels_default pageOnlyFunc).1 (by decide),
   (parse_resumo_missing_labels_default pageOnlyFunc).2.2.2.1
      "".data " ".data "34".data "".data (by decide)⟩

/-- First classification rule: a header whose stripped, lowered text
contains `carro` is renamed to `Carro`. -/
theorem normaliza_carro {h : String}
    (hc : containsSub "carro".data (lowname h) = true) :
    normaliza h = "Carro" := by
  simp [normaliza, hc]

/-- Second classification rule, reached when the first fails. -/
theorem normaliza_ultimo {h : String}
    (hc : containsSub "carro".data (lowname h) = false)
    (hu : containsSub "último".data (lowname h) = true ∨
      containsSub "ultimo".data (lowname h) = true) :
    normaliza h = "Último Acesso" := by
  rcases hu with hu | hu <;> simp [normaliza, hc, hu]

/-- Third classification rule, reached when the first two fail. -/
theorem normaliza_status_rule {h : String}
    (hc : containsSub "carro".data (lowname h) = false)
    (hu1 : containsSub "último".data (lowname h) = false)
    (hu2 : containsSub "ultimo".data (lowname h) = false)
    (hs : containsSub "status".data (lowname h) = true) :
    normaliza h = "Status" := by
  simp [normaliza, hc, hu1, hu2, hs]

/-- A header matching no rule is not renamed. -/
theorem normaliza_verbatim {h : String}
    (hc : containsSub "carro".data (lowname h) = false)
    (hu1 : containsSub "último".data (lowname h) = false)
    (hu2 : containsSub "ultimo".data (lowname h) = false)
    (hs : containsSub "status".data (lowname h) = false) :
    normaliza h = h := by
  simp [normaliza, hc, hu1, hu2, hs]

/-- Applying the classification twice is the same as applying it once. -/
theorem normaliza_idem (h : String) :
    normaliza (normaliza h) = normaliza h := by
  cases hc : containsSub "carro".data (lowname h) with
  | true => rw [normaliza_carro hc]; decide
  | false =>
    cases hu1 : containsSub "último".data (lowname h) with
    | true => rw [normaliza_ultimo hc (Or.inl hu1)]; decide
    | false =>
      cases hu2 : containsSub "ultimo".data (lowname h) with
      | true => rw [normaliza_ultimo hc (Or.inr hu2)]; decide
      | false =>
        cases hs : containsSub "status".data (lowname h) with
        | true => rw [normaliza_status_rule hc hu1 hu2 hs]; decide
        | false =>
          exact congrArg normaliza (normaliza_verbatim hc hu1 hu2 hs)

/-- Claim C4: header normalization is idempotent, and its (ordered, as in
the code's `elif` chain — see `normaliza_first_match_wins`) rules map any
header containing `carro` to `Carro`, any remaining header containing
`último`/`ultimo` to `Último Acesso`, any remaining header containing
`status` to `Status`, and pass every other header through verbatim; the
containment is checked on the stripped, lowered header, hence
case/accent-insensitively. -/
theorem normaliza_idempotent_rules (h : String) :
    normaliza (normaliza h) = normaliza h ∧
    (containsSub "carro".data (lowname h) = true → normaliza h = "Carro") ∧
    (containsSub "carro".data (lowname h) = false →
      (containsSub "último".data (lowname h) = true ∨
        containsSub "ultimo".data (lowname h) = true) →
      normaliza h = "Último Acesso") ∧
    (containsSub "carro".data (lowname h) = false →
      containsSub "último".data (lowname h) = false →
      containsSub "ultimo".data (lowname h) = false →
      containsSub "status".data (lowname h) = true →
      normaliza h = "Status") ∧
    (containsSub "carro".data (lowname h) = false →
      containsSub "último".data (lowname h) = false →
      containsSub "ultimo".data (lowname h) = false →
      containsSub "status".data (lowname h) = false →
      normaliza h = h) :=
  ⟨normaliza_idem h, fun hc => normaliza_carro hc,
    fun hc hu => normaliza_ultimo hc hu,
    fun hc hu1 hu2 hs => normaliza_status_rule hc hu1 hu2 hs,
    fun hc hu1 hu2 hs => normaliza_verbatim hc hu1 hu2 hs⟩

/-- Concrete instances of `normaliza_idempotent_rules`: the spec's header
examples, and a verbatim pass-through. -/
theorem normaliza_idempotent_rules_witness :
    normaliza "CARRO" = "Carro" ∧ normaliza "carro " = "Carro" ∧
    normaliza "Carro X" = "Carro" ∧
    normaliza "ultimo acesso" = "Último Acesso" ∧
    normaliza "Último Acesso" = "Último Acesso" ∧
    normaliza "Extra" = "Extra" :=
  ⟨(normaliza_idempotent_rules "CARRO").2.1 (by decide),
   (normaliza_idempotent_rules "carro ").2.1 (by decide),
   (normaliza_idempotent_rules "Carro X").2.1 (by decide),
   (normaliza_idempotent_rules "ultimo acesso").2.2.1 (by decide)
     (Or.inr (by decide)),
   (normaliza_idempotent_rules "Último Acesso").2.2.1 (by decide)
     (Or.inl (by decide)),
   (normaliza_idempotent_rules "Extra").2.2.2.2 (by decide) (by decide)
     (by decide) (by decide)⟩

/-- Claim C10: the classification rules are tried in the fixed order
`carro`, `último`/`ultimo`, `status`, first match wins — a header matching
several substrings is renamed by the earliest rule. -/
theorem normaliza_first_match_wins (h : String) :
    (containsSub "carro".data (lowname h) = true →
      (containsSub "último".data (lowname h) = true ∨
        containsSub "ultimo".data (lowname h) = true ∨
        containsSub "status".data (lowname h) = true) →
      normaliza h = "Carro") ∧
    (containsSub "carro".data (lowname h) = false →
      (containsSub "último".data (lowname h) = true ∨
        containsSub "ultimo".data (lowname h) = true) →
      containsSub "status".data (lowname h) = true →
      normaliza h = "Último Acesso") :=
  ⟨fun hc _ => normaliza_carro hc, fun hc hu _ => normaliza_ultimo hc hu⟩

/-- Concrete instance of `normaliza_first_match_wins`: a header containing
both `status` and `carro` is renamed by the earlier `carro` rule. -/
theorem normaliza_first_match_wins_witness :
    normaliza "Status do Carro" = "Carro" :=
  (normaliza_first_match_wins "Status do Carro").1 (by decide)
    (Or.inr (Or.inr (by decide)))

/-- Claim C3: `parse_tabela` fails (with the domain error) exactly when
`read_html` produced no table (`none`, an unparseable document, or the
empty list); with at least one table it succeeds on the first one in
document order, whatever tables follow and whether or not the canonical
columns are present after the rename (missing columns only set the
warning condition `tabelaWarns`, checked in the witness). -/
theorem parse_tabela_first_table_or_error (page : PageHtml) :
    (exOk (parse_tabela page) = false ↔
      page.tabelas = none ∨ page.tabelas = some []) ∧
    (∀ df rest, page.tabelas = some (df :: rest) →
      parse_tabela page = .ok (renameDf df)) := by
  obtain ⟨texto, tabelas⟩ := page
  cases tabelas with
  | none => simp [parse_tabela, exOk]
  | some l =>
    cases l with
    | nil => simp [parse_tabela, exOk]
    | cons df rest => simp [parse_tabela, exOk]

/-- Concrete instance of `parse_tabela_first_table_or_error`: two tables,
the first one lacking the canonical columns, is still the one returned,
with only the warning condition set. -/
theorem parse_tabela_first_table_or_error_witness :
    parse_tabela pageTwoTables = .ok (renameDf dfMissingCols) ∧
      tabelaWarns (renameDf dfMissingCols) = true :=
  ⟨(parse_tabela_first_table_or_error pageTwoTables).2 dfMissingCols
      [dfSecond] rfl,
   by decide⟩

/-- Claim C1: the end-to-end scenario — a page whose text carries the
three totals 117/34/83 and whose single table has the canonical header row
and one data row — makes the orchestrator return exactly that summary and
that one-row table. -/
theorem get_monitoramento_end_to_end :
    get_monitoramento "http://45.71.160.173/monitoramento/"
        (.resp ⟨200, "OK", pageC1⟩) =
      .ok (⟨["Carro", "Último Acesso", "Status"],
        [["Car001", "01/01/2024 10:00", "Funcionando"]]⟩, ⟨117, 34, 83⟩) := by
  rfl

/-- Claim C8: the extraction pipeline is deterministic and stateless —
running the summary and table extraction twice on structurally equal HTML
yields structurally equal (summary, table) pairs.  (In this embedding the
two extractors are pure functions; the source module keeps no mutable
state between calls apart from a logger.) -/
theorem parse_pipeline_deterministic (p q : PageHtml) (h : p = q) :
    (parse_resumo p, parse_tabela p) = (parse_resumo q, parse_tabela q) := by
  rw [h]

/-- Concrete instance of `parse_pipeline_deterministic` on the end-to-end
page. -/
theorem parse_pipeline_deterministic_witness :
    (parse_resumo pageC1, parse_tabela pageC1) =
      (parse_resumo pageC1, parse_tabela pageC1) :=
  parse_pipeline_deterministic pageC1 pageC1 rfl

/-- A list occurring between two others is contained as a substring. -/
theorem containsSub_append_middle (a sub b : List Char) :
    containsSub sub (a ++ (sub ++ b)) = true := by
  unfold containsSub
  rw [List.any_eq_true]
  exact ⟨sub ++ b, (List.mem_tails _ _).mpr (List.suffix_append a (sub ++ b)),
    isPrefixOf_append_self sub b⟩

/-- A list occurring at the end of another is contained as a substring. -/
theorem containsSub_append_left (a sub : List Char) :
    containsSub sub (a ++ sub) = true := by
  have h := containsSub_append_middle a sub []
  simpa using h

/-- The error message built by `fetch_html` contains both the URL and the
text of the underlying exception. -/
theorem url_and_cause_in_fetchErrMsg (url cause : String) :
    containsSub url.data (fetchErrMsg url cause).data = true ∧
    containsSub cause.data (fetchErrMsg url cause).data = true := by
  unfold fetchErrMsg
  constructor
  · simp only [String.data_append, List.append_assoc]
    exact containsSub_append_middle _ _ _
  · rw [String.data_append]
    exact containsSub_append_left _ _

/-- Claim C6, amended to the statuses `raise_for_status` actually raises
for: on any `requests` exception (network error, timeout) and on any
4xx/5xx status, `fetch_html` fails with a `MonitoramentoError` — the only
error kind of its result type — whose message contains the URL (and the
underlying cause); on any other status it returns the body re-decoded with
the apparent encoding. -/
theorem fetch_html_error_classification (url : String)
    (outcome : FetchOutcome) :
    (∀ msg, outcome = .exc msg →
      fetch_html url outcome = .error ⟨fetchErrMsg url msg⟩ ∧
      containsSub url.data (fetchErrMsg url msg).data = true ∧
      containsSub msg.data (fetchErrMsg url msg).data = true) ∧
    (∀ r, outcome = .resp r → 400 ≤ r.status → r.status < 600 →
      fetch_html url outcome =
        .error ⟨fetchErrMsg url (httpErrText r.status r.reason url)⟩ ∧
      containsSub url.data
        (fetchErrMsg url (httpErrText r.status r.reason url)).data = true) ∧
    (∀ r, outcome = .resp r → (r.status < 400 ∨ 600 ≤ r.status) →
      fetch_html url outcome = .ok r.page) := by
  refine ⟨?_, ?_, ?_⟩
  · intro msg h
    subst h
    exact ⟨rfl, (url_and_cause_in_fetchErrMsg url msg).1,
      (url_and_cause_in_fetchErrMsg url msg).2⟩
  · intro r h h4 h6
    subst h
    refine ⟨?_, (url_and_cause_in_fetchErrMsg url _).1⟩
    simp only [fetch_html]
    rw [if_pos ⟨h4, h6⟩]
  · intro r h hs
    subst h
    simp only [fetch_html]
    rw [if_neg (by omega)]

/-- Counterexample to claim C6 as stated: 304 is not a 2xx status, yet
`fetch_html` returns the body instead of raising, because
`raise_for_status` only raises for 4xx/5xx. -/
theorem fetch_html_non2xx_counterexample :
    fetch_html "http://45.71.160.173/monitoramento/"
        (.resp ⟨304, "Not Modified", pageStub⟩) = .ok pageStub ∧
    ¬(200 ≤ 304 ∧ 304 < 300) :=
  ⟨rfl, by omega⟩

/-- Concrete instances of `fetch_html_error_classification`: a timeout, a
404 status and a 200 status. -/
theorem fetch_html_error_classification_witness :
    fetch_html "http://h/" (.exc "timeout") =
      .error ⟨fetchErrMsg "http://h/" "timeout"⟩ ∧
    containsSub "http://h/".data
      (fetchErrMsg "http://h/" "timeout").data = true ∧
    fetch_html "http://h/" (.resp ⟨404, "Not Found", pageStub⟩) =
      .error ⟨fetchErrMsg "http://h/"
        (httpErrText 404 "Not Found" "http://h/")⟩ ∧
    fetch_html "http://h/" (.resp ⟨200, "OK", pageStub⟩) = .ok pageStub :=
  ⟨((fetch_html_error_classification "http://h/" (.exc "timeout")).1
      "timeout" rfl).1,
   ((fetch_html_error_classification "http://h/" (.exc "timeout")).1
      "timeout" rfl).2.1,
   ((fetch_html_error_classification "http://h/"
      (.resp ⟨404, "Not Found", pageStub⟩)).2.1 ⟨404, "Not Found", pageStub⟩
      rfl (by decide) (by decide)).1,
   (fetch_html_error_classification "http://h/"
      (.resp ⟨200, "OK", pageStub⟩)).2.2 ⟨200, "OK", pageStub⟩ rfl
      (Or.inl (by decide))⟩

/-- Claim C7: in the orchestrator a fetch failure short-circuits and
propagates the `MonitoramentoError` unchanged, a table-extraction failure
propagates likewise, and otherwise the pipeline returns the pair
`(table, summary)`; the summary extraction and the column rename are total
functions and cannot abort the pipeline. -/
theorem get_monitoramento_propagation (url : String)
    (outcome : FetchOutcome) :
    (∀ e, fetch_html url outcome = .error e →
      get_monitoramento url outcome = .error e) ∧
    (∀ page e, fetch_html url outcome = .ok page →
      parse_tabela page = .error e →
      get_monitoramento url outcome = .error e) ∧
    (∀ page df, fetch_html url outcome = .ok page →
      parse_tabela page = .ok df →
      get_monitoramento url outcome = .ok (df, parse_resumo page)) := by
  refine ⟨?_, ?_, ?_⟩
  · intro e h
    simp only [get_monitoramento, h]
  · intro page e h ht
    simp only [get_monitoramento, h, ht]
  · intro page df h ht
    simp only [get_monitoramento, h, ht]

/-- Concrete instances of `get_monitoramento_propagation`: a refused
connection propagates the fetch error, a page with no table propagates the
table error, and the end-to-end page succeeds. -/
theorem get_monitoramento_propagation_witness :
    get_monitoramento "http://h/" (.exc "connection refused") =
      .error ⟨fetchErrMsg "http://h/" "connection refused"⟩ ∧
    get_monitoramento "http://h/" (.resp ⟨200, "OK", pageStub⟩) =
      .error ⟨"Nenhuma tabela HTML encontrada na página."⟩ ∧
    get_monitoramento "http://h/" (.resp ⟨200, "OK", pageC1⟩) =
      .ok (renameDf ⟨["Carro", "Último Acesso", "Status"],
          [["Car001", "01/01/2024 10:00", "Funcionando"]]⟩,
        parse_resumo pageC1) :=
  ⟨(get_monitoramento_propagation "http://h/" (.exc "connection refused")).1
      ⟨fetchErrMsg "http://h/" "connection refused"⟩ rfl,
   (get_monitoramento_propagation "http://h/" (.resp ⟨200, "OK", pageStub⟩)).2.1
      pageStub ⟨"Nenhuma tabela HTML encontrada na página."⟩ rfl rfl,
   (get_monitoramento_propagation "http://h/" (.resp ⟨200, "OK", pageC1⟩)).2.2
      pageC1 (renameDf ⟨["Carro", "Último Acesso", "Status"],
        [["Car001", "01/01/2024 10:00", "Funcionando"]]⟩) rfl rfl⟩

/-- Claim C9: the update trigger is a total function — it raises nothing.
On an exception it reports `(false, error text)`; on a 4xx/5xx status
(where `raise_for_status` raises inside the `try`) likewise; on any other
response it reports success, with the stripped body, or the canned message
when the stripped body is empty. -/
theorem chamar_atualiza_status_cases (url : String) (outcome : ReqOutcome) :
    (∀ msg, outcome = .exc msg →
      chamar_atualiza_status url outcome =
        (false, "Erro ao atualizar status no servidor: " ++ msg)) ∧
    (∀ s r t, outcome = .resp s r t → 400 ≤ s → s < 600 →
      chamar_atualiza_status url outcome =
        (false, "Erro ao atualizar status no servidor: " ++
          httpErrText s r (pyStripStr url))) ∧
    (∀ s r t, outcome = .resp s r t → (s < 400 ∨ 600 ≤ s) →
      pyStripStr t = "" →
      chamar_atualiza_status url outcome = (true, cannedUpdateMsg)) ∧
    (∀ s r t, outcome = .resp s r t → (s < 400 ∨ 600 ≤ s) →
      pyStripStr t ≠ "" →
      chamar_atualiza_status url outcome = (true, pyStripStr t)) := by
  refine ⟨?_, ?_, ?_, ?_⟩
  · intro msg h
    subst h
    rfl
  · intro s r t h h4 h6
    subst h
    simp only [chamar_atualiza_status]
    rw [if_pos ⟨h4, h6⟩]
  · intro s r t h hs ht
    subst h
    simp only [chamar_atualiza_status]
    rw [if_neg (by omega), if_pos ht]
  · intro s r t h hs ht
    subst h
    simp only [chamar_atualiza_status]
    rw [if_neg (by omega), if_neg ht]

/-- Concrete instances of `chamar_atualiza_status_cases`: an exception, an
empty body, a nonempty body, and a 503 status. -/
theorem chamar_atualiza_status_cases_witness :
    chamar_atualiza_status "u" (.exc "boom") =
      (false, "Erro ao atualizar status no servidor: " ++ "boom") ∧
    chamar_atualiza_status "u" (.resp 200 "OK" "   ") =
      (true, cannedUpdateMsg) ∧
    chamar_atualiza_status "u" (.resp 200 "OK" "  atualizado  ") =
      (true, pyStripStr "  atualizado  ") ∧
    chamar_atualiza_status "u" (.resp 503 "Service Unavailable" "") =
      (false, "Erro ao atualizar status no servidor: " ++
        httpErrText 503 "Service Unavailable" (pyStripStr "u")) :=
  ⟨(chamar_atualiza_status_cases "u" (.exc "boom")).1 "boom" rfl,
   (chamar_atualiza_status_cases "u" (.resp 200 "OK" "   ")).2.2.1
      200 "OK" "   " rfl (Or.inl (by omega)) (by decide),
   (chamar_atualiza_status_cases "u" (.resp 200 "OK" "  atualizado  ")).2.2.2
      200 "OK" "  atualizado  " rfl (Or.inl (by omega)) (by decide),
   (chamar_atualiza_status_cases "u" (.resp 503 "Service Unavailable" "")).2.1
      503 "Service Unavailable" "" rfl (by omega) (by omega)⟩
